import Mathlib

/-!
Shallow embedding of `app/src/main/server.js` (class `Server`) from the
entry-hw repository: connection registry, hub/subordinate role handling,
message routing, state broadcasting, and the hardware-module fetch flow.

Each definition translates one method or event handler of the `Server`
class.  Mutable fields of the class become fields of `ServerState`;
observable side effects (socket emissions, router callbacks, reopen of the
transport) become explicit `Effect` values returned alongside the updated
state.
-/

namespace EntryHW

/-- Display / server mode values (`SERVER_MODE_TYPES.single` / `.multi`).
Modelled from the spec: the constants module `common/constants` is outside
the embedded sources; the spec's `DisplayMode ∈ {Single, Multi}`
enumeration is used. -/
inductive DisplayMode
  | single
  | multi
  deriving DecidableEq

/-- Process role values (`SERVER_MODE_TYPES.parent` / `.child`).
Modelled from the spec: `Role ∈ {Hub (parent), Subordinate (child)}`. -/
inductive RunningMode
  | parent
  | child
  deriving DecidableEq

/-- A peer connection as seen by the socket server: its id, whether its
handshake declared `childServer === 'true'`, the `roomId` assigned to a
normal connection at connect time, and the `roomIds` accumulated by a
child-server connection through `matchTarget` events. -/
structure Connection where
  id : String
  childServer : Bool
  roomId : Option String
  roomIds : List String
  deriving DecidableEq

/-- An inbound application message: the control envelope read by the
`message` handler (`action`, `mode`, the module name carried by an `init`
message's parsed `data`, and the optional `key` echoed on `ack`). -/
structure Message where
  action : Option String
  mode : Option DisplayMode
  dataName : String
  key : Option Bool
  deriving DecidableEq

/-- An outbound payload handed to `send` (`{data: packet}` byte payloads
from `setState`, `{action:'state', ...}` from `disconnectHardware`). -/
inductive Payload
  | bytes (l : List Nat)
  | stateAction (statement : String)
  deriving DecidableEq

/-- Observable side effects of the `Server` methods and handlers. -/
inductive Effect
  | handleServerData (msg : Message)
  | requestHardware (name : String)
  | ack (key : Bool)
  | emitMessage (target : String) (msg : Message)
  | emitModeAll (m : DisplayMode)
  | notifyServerMode (m : DisplayMode)
  | joinRoom (connId : String) (room : Option String)
  | emitMatched (room : String) (connId : String)
  | emitMatching (room : String)
  | emitEvent (name : String)
  | closeConn (connId : String)
  | emitToConn (connId : String) (p : Payload)
  | emitPayloadToRoom (room : String) (p : Payload)
  | emitMatchTarget (room : String)
  | closeClientSocket
  | reopen
  deriving DecidableEq

/-- The mutable fields of the `Server` instance (constructor, lines 24-39). -/
structure ServerState where
  packet : List Nat
  connections : List Connection
  connectionSet : List String
  roomCnt : Nat
  childServerList : List String
  clientTargetList : List (String × String)
  runningMode : RunningMode
  currentServerMode : DisplayMode
  masterRoomIds : List String
  clientRoomId : String
  socketClient : Option Connection
  socketServer : Bool
  httpServer : Bool
  state : Option String
  deriving DecidableEq

/-- Constructor state: `new Server(router)`. -/
def initialState : ServerState :=
  { packet := [0x01, 0x00, 0x00, 0x00]
    connections := []
    connectionSet := []
    roomCnt := 0
    childServerList := []
    clientTargetList := []
    runningMode := RunningMode.parent
    currentServerMode := DisplayMode.single
    masterRoomIds := []
    clientRoomId := ""
    socketClient := none
    socketServer := false
    httpServer := false
    state := none }

/-- `arr.indexOf(x) === -1 && arr.push(x)` pattern used for id lists. -/
def pushIfAbsent (l : List String) (x : String) : List String :=
  if x ∈ l then l else l ++ [x]

/-- `delete obj[key]` on an object used as a string-keyed set. -/
def removeId : List String → String → List String
  | [], _ => []
  | h :: t, x => if h = x then removeId t x else h :: removeId t x

/-- `obj[key] = value` on an object used as a string-to-string map
(`clientTargetList[data.roomId] = connection.id`, overwriting). -/
def assocSet : List (String × String) → String → String → List (String × String)
  | [], k, v => [(k, v)]
  | (k', v') :: t, k, v => if k' = k then (k, v) :: t else (k', v') :: assocSet t k v

/-- `obj[key]` lookup on the same map. -/
def assocGet : List (String × String) → String → Option String
  | [], _ => none
  | (k', v') :: t, k => if k' = k then some v' else assocGet t k

/-- `reconnectionAttempts: 3` option of the socket.io client
(`_createSocketClient`, line 124): the uplink reconnection budget. -/
def reconnectionAttempts : Nat := 3

/-- `this.masterRoomIds.indexOf(connection.roomId) >= 0` (line 253):
membership test of the originating connection's room in the master set;
an absent `roomId` is never found. -/
def roomIdInMaster (s : ServerState) (conn : Connection) : Bool :=
  match conn.roomId with
  | some r => decide (r ∈ s.masterRoomIds)
  | none => false

/-- `Server.send(payload)` (lines 379-395): hub with no child servers, or a
child process, emits to every held connection; otherwise the hub emits to
every master room through the socket server. -/
def send (s : ServerState) (p : Payload) : List Effect :=
  if (s.runningMode = RunningMode.parent ∧ s.childServerList.length = 0) ∨
      s.runningMode = RunningMode.child then
    if s.connections.length ≠ 0 then
      s.connections.map (fun c => Effect.emitToConn c.id p)
    else []
  else
    if s.masterRoomIds.length > 0 then
      s.masterRoomIds.map (fun r => Effect.emitPayloadToRoom r p)
    else []

/-- The `state === '...'` comparison chain of `setState` (lines 401-413),
returning the byte written into `packet[3]`. -/
def stateCode (st : String) : Option Nat :=
  if st = "connecting" then some 0x01
  else if st = "connected" then some 0x02
  else if st = "lost" then some 0x03
  else if st = "disconnected" then some 0x04
  else none

/-- `Server.setState(state)` (lines 397-415): stores the state name, and if
any connection is held, writes the matching code into byte 3 of the shared
packet and sends `{data: packet}` through `send`. -/
def setState (s : ServerState) (st : Option String) : ServerState × List Effect :=
  let s0 := { s with state := st }
  if s0.connections.length ≠ 0 then
    match st.bind stateCode with
    | some c =>
      let s1 := { s0 with packet := s0.packet.set 3 c }
      (s1, send s1 (Payload.bytes s1.packet))
    | none => (s0, [])
  else (s0, [])

/-- Routing decision of the connection `message` handler (lines 251-269):
local dispatch when the message declares single mode or the originating
room is in `masterRoomIds`; otherwise fan out over a child server's rooms,
or forward to the child server registered for the room in
`clientTargetList` (the stored id must be truthy), or drop. -/
def routeMessage (s : ServerState) (conn : Connection) (msg : Message) : List Effect :=
  if msg.mode = some DisplayMode.single ∨ roomIdInMaster s conn = true then
    [Effect.handleServerData msg]
  else if conn.childServer = true then
    conn.roomIds.map (fun r => Effect.emitMessage r msg)
  else
    match conn.roomId with
    | some r =>
      match assocGet s.clientTargetList r with
      | some t => if t = "" then [] else [Effect.emitMessage t msg]
      | none => []
    | none => []

/-- The full connection `message` handler (lines 244-274): an `init` action
triggers the hardware fetch, the message is routed, and a supplied `ack`
is answered with the message's `key` (default `true`). -/
def onMessage (s : ServerState) (conn : Connection) (msg : Message) (hasAck : Bool) :
    List Effect :=
  (if msg.action = some "init" then [Effect.requestHardware msg.dataName] else [])
    ++ routeMessage s conn msg
    ++ (if hasAck then [Effect.ack (msg.key.getD true)] else [])

/-- `toggleServerMode(mode)` (lines 66-69). -/
def toggleServerMode (s : ServerState) (m : DisplayMode) : ServerState × List Effect :=
  ({ s with currentServerMode := m }, [Effect.notifyServerMode m])

/-- The socket-server `connection` handler (lines 181-204 and 281): the
connection is registered, a child server is recorded in
`childServerList`, a normal connection joins its handshake room, the
display mode is recomputed from the child-server count and broadcast, and
the stored state is replayed through `setState`. -/
def onConnect (s : ServerState) (connId : String) (childServer : Bool)
    (roomId : Option String) : ServerState × List Effect :=
  let conn : Connection :=
    { id := connId
      childServer := childServer
      roomId := if childServer then none else roomId
      roomIds := [] }
  let s1 := { s with
    connectionSet := pushIfAbsent s.connectionSet connId
    connections := s.connections ++ [conn]
    childServerList :=
      if childServer then pushIfAbsent s.childServerList connId else s.childServerList }
  let joinEff : List Effect :=
    if childServer then [] else [Effect.joinRoom connId roomId]
  let m : DisplayMode :=
    if s1.childServerList.length > 0 then DisplayMode.multi else DisplayMode.single
  let t := toggleServerMode s1 m
  let st := setState t.1 t.1.state
  (st.1,
    [Effect.emitEvent "connection"] ++ joinEff ++ [Effect.emitModeAll m] ++ t.2 ++ st.2)

/-- The connection `matchTarget` handler (lines 206-222): a child server
claiming a truthy room id records the room on the connection, overwrites
`clientTargetList[roomId]` with its id, and announces `matched` to the
room.  Returns the updated server state and connection. -/
def onMatchTarget (s : ServerState) (conn : Connection) (roomId : String) :
    (ServerState × Connection) × List Effect :=
  if conn.childServer = true ∧ roomId ≠ "" then
    let conn1 := { conn with roomIds := pushIfAbsent conn.roomIds roomId }
    (({ s with clientTargetList := assocSet s.clientTargetList roomId conn.id }, conn1),
      [Effect.emitMatched roomId conn.id])
  else ((s, conn), [])

/-- The connection `disconnect` handler (lines 224-242): a child server's
rooms are told `matching`, its entries are deleted from `connectionSet`
and `childServerList`, and single mode is broadcast when no child server
remains; a normal connection is only dropped from `connectionSet`. -/
def onDisconnect (s : ServerState) (conn : Connection) : ServerState × List Effect :=
  if conn.childServer = true then
    let matchingEffs := conn.roomIds.map Effect.emitMatching
    let s1 := { s with
      connectionSet := removeId s.connectionSet conn.id
      childServerList := removeId s.childServerList conn.id }
    if s1.childServerList.length ≤ 0 then
      let t := toggleServerMode s1 DisplayMode.single
      (t.1, matchingEffs ++ [Effect.emitModeAll DisplayMode.single] ++ t.2)
    else (s1, matchingEffs)
  else
    ({ s with connectionSet := removeId s.connectionSet conn.id }, [])

/-- The socket-client `reconnect_failed` handler (lines 147-152): after the
reconnection budget is exhausted the client closes the uplink, toggles
single mode, clears the handle and reopens the transport. -/
def onReconnectFailed (s : ServerState) : ServerState × List Effect :=
  let t := toggleServerMode s DisplayMode.single
  ({ t.1 with socketClient := none },
    [Effect.closeClientSocket] ++ t.2 ++ [Effect.reopen])

/-- The socket-client `disconnect` handler (lines 154-158): the uplink is
closed, the handle cleared and the transport reopened. -/
def onClientDisconnect (s : ServerState) : ServerState × List Effect :=
  ({ s with socketClient := none },
    [Effect.closeClientSocket, Effect.reopen])

/-- The socket-client `connect` handler (lines 127-139): every truthy
router room id is pushed into `masterRoomIds` when absent and announced
upward via `matchTarget`. -/
def onClientConnect (s : ServerState) (routerRoomIds : List String) :
    ServerState × List Effect :=
  routerRoomIds.foldl
    (fun acc r =>
      if r ≠ "" then
        ({ acc.1 with masterRoomIds := pushIfAbsent acc.1.masterRoomIds r },
          acc.2 ++ [Effect.emitMatchTarget r])
      else acc)
    (s, [])

/-- The `listening` handler of `open()` (lines 97-110): absent truthy
router room ids are merged into `masterRoomIds`, the process becomes the
parent, and the http and socket servers are installed. -/
def openListening (s : ServerState) (routerRoomIds : List String) : ServerState :=
  { s with
    masterRoomIds :=
      routerRoomIds.foldl
        (fun acc r => if r ∉ acc ∧ r ≠ "" then acc ++ [r] else acc)
        s.masterRoomIds
    runningMode := RunningMode.parent
    httpServer := true
    socketServer := true }

/-- The `error` handler of `open()` (lines 82-89): on a bind conflict the
process becomes a child in multi mode and opens a socket client that is
also pushed onto `connections`. -/
def openError (s : ServerState) (sock : Connection) : ServerState × List Effect :=
  let t := toggleServerMode { s with runningMode := RunningMode.child } DisplayMode.multi
  ({ t.1 with connections := t.1.connections ++ [sock], socketClient := some sock },
    t.2)

/-- `Server.addRoomIdsOnSecondInstance(roomId)` (lines 41-55). -/
def addRoomIdsOnSecondInstance (s : ServerState) (roomId : String) :
    ServerState × List Effect :=
  if s.runningMode = RunningMode.parent then
    ({ s with masterRoomIds := pushIfAbsent s.masterRoomIds roomId }, [])
  else if roomId ≠ "" then
    ({ s with
        clientRoomId := roomId
        masterRoomIds := pushIfAbsent s.masterRoomIds roomId },
      if s.socketClient.isSome then [Effect.emitMatchTarget roomId] else [])
  else (s, [])

/-- `Server.closeSingleConnection(connection)` (lines 366-373): the
connection is looked up with `indexOf`; when found, `connections.slice`
(which copies and does not mutate) is evaluated and the connection is
closed.  The `connections` list itself is never changed. -/
def closeSingleConnection (s : ServerState) (conn : Connection) :
    ServerState × List Effect :=
  if conn ∈ s.connections then (s, [Effect.closeConn conn.id])
  else (s, [])

/-- `Server.disconnectHardware()` (lines 417-424). -/
def disconnectHardware (s : ServerState) : List Effect :=
  send s (Payload.stateAction "disconnectHardware")

/-- `Server.close()` (lines 426-437). -/
def closeServer (s : ServerState) : ServerState × List Effect :=
  ({ s with socketServer := false, httpServer := false, connections := [] },
    [Effect.emitEvent "closed"])

/-- The connection `close` handler (lines 276-280): emits `close` upward
and calls `closeSingleConnection(this)` — note the argument is the server
object, which never occurs in `connections`, so the registry is
untouched. -/
def onConnectionClose (s : ServerState) : ServerState × List Effect :=
  (s, [Effect.emitEvent "close"])

/-- Steps of `Server._requestHardware(moduleName)` (lines 321-364),
recorded as an observable trace: the rejection for a falsy name, the HTTP
GET, the rejection on a non-200 status, and on success (after the zip
stream reports done) the configuration commit (`sendState` then
`startScan`) and the resolution. -/
inductive FetchStep
  | httpGet (path : String)
  | rejected
  | resolved
  | sendState (kind : String) (cfg : String)
  | startScan (cfg : String)
  deriving DecidableEq

/-- `Server._requestHardware(moduleName)` (lines 321-364) as a function of
the module name, the HTTP response status (if a response arrived), whether
the zip-extraction stream reported `done`, and the parsed configuration. -/
def requestHardware (moduleName : String) (response : Option Nat) (zipDone : Bool)
    (config : String) : List FetchStep :=
  if moduleName = "" then [FetchStep.rejected]
  else
    FetchStep.httpGet ("/api/hardware/" ++ moduleName ++ "/module") ::
      (match response with
        | none => []
        | some sc =>
          if sc = 200 then
            if zipDone then
              [FetchStep.sendState "show_robot" config, FetchStep.startScan config,
                FetchStep.resolved]
            else []
          else [FetchStep.rejected])

/-- Hub-side connection lifecycle events of the socket server. -/
inductive HubEvent
  | connect (connId : String) (childServer : Bool) (roomId : Option String)
  | disconnect (conn : Connection)

/-- One hub-side lifecycle event applied to the server state. -/
def hubStep (s : ServerState) : HubEvent → ServerState
  | HubEvent.connect cid c r => (onConnect s cid c r).1
  | HubEvent.disconnect conn => (onDisconnect s conn).1

/-- A sequence of hub-side lifecycle events run from the constructor state. -/
def runHubEvents (es : List HubEvent) : ServerState :=
  es.foldl hubStep initialState

/-- The display-mode invariant: `currentServerMode` is `multi` exactly when
some child-server connection is live, and `single` exactly when none is. -/
def modeInv (s : ServerState) : Prop :=
  (s.currentServerMode = DisplayMode.multi ↔ 0 < s.childServerList.length) ∧
  (s.currentServerMode = DisplayMode.single ↔ s.childServerList.length = 0)

/-- Every state-mutating operation of the `Server` class. -/
inductive Op
  | addRoomIds (roomId : String)
  | openListen (routerRoomIds : List String)
  | openErr (sock : Connection)
  | clientConnect (routerRoomIds : List String)
  | reconnectFailed
  | clientDisconnect
  | connect (connId : String) (childServer : Bool) (roomId : Option String)
  | matchTarget (conn : Connection) (roomId : String)
  | disconnect (conn : Connection)
  | message (conn : Connection) (msg : Message) (hasAck : Bool)
  | sendOp (p : Payload)
  | setStateOp (st : Option String)
  | closeSingle (conn : Connection)
  | connectionClose
  | disconnectHw
  | closeSrv
  | toggleMode (m : DisplayMode)

/-- State component of each operation (`send`, `disconnectHardware` and the
message handler emit effects but never mutate the registry fields). -/
def step (s : ServerState) : Op → ServerState
  | Op.addRoomIds r => (addRoomIdsOnSecondInstance s r).1
  | Op.openListen rs => openListening s rs
  | Op.openErr sock => (openError s sock).1
  | Op.clientConnect rs => (onClientConnect s rs).1
  | Op.reconnectFailed => (onReconnectFailed s).1
  | Op.clientDisconnect => (onClientDisconnect s).1
  | Op.connect cid c r => (onConnect s cid c r).1
  | Op.matchTarget conn r => (onMatchTarget s conn r).1.1
  | Op.disconnect conn => (onDisconnect s conn).1
  | Op.message _ _ _ => s
  | Op.sendOp _ => s
  | Op.setStateOp st => (setState s st).1
  | Op.closeSingle conn => (closeSingleConnection s conn).1
  | Op.connectionClose => (onConnectionClose s).1
  | Op.disconnectHw => s
  | Op.closeSrv => (closeServer s).1
  | Op.toggleMode m => (toggleServerMode s m).1

/-- Example child-server connection that has claimed room `r1`. -/
def childConn : Connection :=
  { id := "c1", childServer := true, roomId := none, roomIds := ["r1"] }

/-- Example normal connection joined to room `r2`. -/
def normConn : Connection :=
  { id := "n1", childServer := false, roomId := some "r2", roomIds := [] }

/-- Example hub state holding the child-server connection `childConn`. -/
def sWithChild : ServerState :=
  { initialState with
    connectionSet := ["c1"]
    childServerList := ["c1"]
    connections := [childConn]
    currentServerMode := DisplayMode.multi }

/-- Example state holding one normal connection. -/
def connState : ServerState := { initialState with connections := [normConn] }

/-- Example state in which room `r2` is claimed by connection `c1`. -/
def targetState : ServerState :=
  { initialState with clientTargetList := [("r2", "c1")] }

/-- Example message declaring single mode. -/
def msgSingle : Message :=
  { action := none, mode := some DisplayMode.single, dataName := "", key := none }

/-- Example message with no declared mode. -/
def msgPlain : Message :=
  { action := none, mode := none, dataName := "", key := none }

/-! ## Helper lemmas -/

theorem mem_pushIfAbsent {l : List String} {r : String} (x : String) (h : r ∈ l) :
    r ∈ pushIfAbsent l x := by
  unfold pushIfAbsent
  split
  · exact h
  · exact List.mem_append_left _ h

theorem removeId_idem (l : List String) (x : String) :
    removeId (removeId l x) x = removeId l x := by
  induction l with
  | nil => rfl
  | cons h t ih =>
    simp only [removeId]
    split
    · exact ih
    · simp only [removeId]
      split
      · rename_i h1 h2
        exact absurd h2 h1
      · rw [ih]

theorem removeId_length_le (l : List String) (x : String) :
    (removeId l x).length ≤ l.length := by
  induction l with
  | nil => exact Nat.le_refl _
  | cons h t ih =>
    simp only [removeId]
    split
    · exact Nat.le_succ_of_le ih
    · simpa using Nat.succ_le_succ ih

theorem setState_currentServerMode (s : ServerState) (st : Option String) :
    (setState s st).1.currentServerMode = s.currentServerMode := by
  unfold setState
  dsimp only
  split
  · split <;> rfl
  · rfl

theorem setState_childServerList (s : ServerState) (st : Option String) :
    (setState s st).1.childServerList = s.childServerList := by
  unfold setState
  dsimp only
  split
  · split <;> rfl
  · rfl

theorem setState_masterRoomIds (s : ServerState) (st : Option String) :
    (setState s st).1.masterRoomIds = s.masterRoomIds := by
  unfold setState
  dsimp only
  split
  · split <;> rfl
  · rfl

/-! ## Claim theorems -/

/-- C1: every inbound application message whose declared mode is single, or
whose originating connection's room is in `masterRoomIds`, is dispatched to
the local controller router via `handleServerData` by the connection
`message` handler; in particular a single-mode message is dispatched
locally for every possible `masterRoomIds` contents. -/
theorem message_single_or_master_dispatches_locally (s : ServerState) (conn : Connection)
    (msg : Message) (hasAck : Bool)
    (h : msg.mode = some DisplayMode.single ∨
      ∃ r, conn.roomId = some r ∧ r ∈ s.masterRoomIds) :
    Effect.handleServerData msg ∈ onMessage s conn msg hasAck := by
  have hcond : msg.mode = some DisplayMode.single ∨ roomIdInMaster s conn = true := by
    rcases h with h | ⟨r, hr, hm⟩
    · exact Or.inl h
    · right
      unfold roomIdInMaster
      rw [hr]
      exact decide_eq_true hm
  have hroute : routeMessage s conn msg = [Effect.handleServerData msg] := by
    unfold routeMessage
    rw [if_pos hcond]
  unfold onMessage
  rw [hroute]
  simp

theorem message_single_or_master_dispatches_locally_witness :
    Effect.handleServerData msgSingle ∈ onMessage initialState normConn msgSingle false :=
  message_single_or_master_dispatches_locally initialState normConn msgSingle false
    (Or.inl rfl)

/-- C3 counterexample: the socket-client `disconnect` handler (triggered by
an explicit drop from the remote hub) does not set the display mode to
single — from a state in multi mode it leaves multi mode in place, so the
claim that demotion sets DisplayMode = Single for both triggering
conditions is false. -/
theorem client_disconnect_keeps_mode_counterexample :
    (onClientDisconnect sWithChild).1.currentServerMode ≠ DisplayMode.single ∧
    (onClientDisconnect sWithChild).1.socketClient = none := by
  constructor
  · intro h
    cases h
  · rfl

/-- C3 amended: on reconnection failure (after the budget of
`reconnectionAttempts = 3` attempts) the subordinate closes the link, sets
DisplayMode to single, clears the link handle and re-invokes `open()`; on
an explicit drop by the remote hub it closes the link, clears the handle
and re-invokes `open()` but leaves DisplayMode unchanged. -/
theorem demotion_behavior (s : ServerState) :
    (onReconnectFailed s).1 =
      { s with currentServerMode := DisplayMode.single, socketClient := none } ∧
    (onReconnectFailed s).2 =
      [Effect.closeClientSocket, Effect.notifyServerMode DisplayMode.single,
        Effect.reopen] ∧
    (onClientDisconnect s).1 = { s with socketClient := none } ∧
    (onClientDisconnect s).2 = [Effect.closeClientSocket, Effect.reopen] ∧
    reconnectionAttempts = 3 :=
  ⟨rfl, rfl, rfl, rfl, rfl⟩

/-- C4: a message from a non-relay connection in room `r`, when `r` is not
in `masterRoomIds`, the message does not declare single mode, and
`clientTargetList` maps `r` to the (truthy) connection id `c`, is routed
exactly to `c` — no other destination, no local dispatch. -/
theorem nonauthoritative_forward_exact (s : ServerState) (conn : Connection)
    (msg : Message) (r c : String)
    (hchild : conn.childServer = false)
    (hroom : conn.roomId = some r)
    (hmaster : r ∉ s.masterRoomIds)
    (hmode : msg.mode ≠ some DisplayMode.single)
    (htgt : assocGet s.clientTargetList r = some c)
    (hc : c ≠ "") :
    routeMessage s conn msg = [Effect.emitMessage c msg] := by
  have hnotin : roomIdInMaster s conn = false := by
    unfold roomIdInMaster
    rw [hroom]
    exact decide_eq_false hmaster
  have hA : ¬(msg.mode = some DisplayMode.single ∨ roomIdInMaster s conn = true) := by
    rintro (h | h)
    · exact hmode h
    · rw [hnotin] at h
      cases h
  have hB : ¬(conn.childServer = true) := by
    rw [hchild]
    intro h
    cases h
  unfold routeMessage
  rw [if_neg hA, if_neg hB, hroom]
  dsimp only
  rw [htgt]
  dsimp only
  rw [if_neg hc]

theorem nonauthoritative_forward_exact_witness :
    routeMessage targetState normConn msgPlain = [Effect.emitMessage "c1" msgPlain] :=
  nonauthoritative_forward_exact targetState normConn msgPlain "r2" "c1"
    rfl rfl (by decide) (by decide) rfl (by decide)

/-- C5: `send(payload)` delivers the payload to every directly held
connection when the process is the parent with no child servers or is a
child; otherwise (parent with at least one child server) it delivers to
every room in `masterRoomIds` through the hub broadcaster. -/
theorem send_destination_selection (s : ServerState) (p : Payload) :
    send s p =
      (if (s.runningMode = RunningMode.parent ∧ s.childServerList.length = 0) ∨
          s.runningMode = RunningMode.child then
        s.connections.map (fun c => Effect.emitToConn c.id p)
      else
        s.masterRoomIds.map (fun r => Effect.emitPayloadToRoom r p)) := by
  unfold send
  split
  · split
    · rfl
    · rename_i hlen
      have h0 : s.connections = [] := List.length_eq_zero.mp (not_ne_iff.mp hlen)
      rw [h0]
      rfl
  · split
    · rfl
    · rename_i hlen
      have h0 : s.masterRoomIds = [] :=
        List.length_eq_zero.mp (Nat.le_zero.mp (not_lt.mp hlen))
      rw [h0]
      rfl

/-- C10: `closeSingleConnection` never mutates the server state — the
non-mutating `slice` leaves `connections` unchanged — and emits a close of
the given connection exactly when it occurs in `connections` (otherwise it
is a no-op). -/
theorem closeSingleConnection_frame (s : ServerState) (conn : Connection) :
    (closeSingleConnection s conn).1 = s ∧
    (closeSingleConnection s conn).2 =
      (if conn ∈ s.connections then [Effect.closeConn conn.id] else []) := by
  unfold closeSingleConnection
  split <;> exact ⟨rfl, rfl⟩

/-- C6 counterexample: running the `disconnect` handler twice for the
child-server connection `childConn` (which claimed room `r1`) emits the
`matching` announcement to `r1` in both runs — two announcements in total
instead of one — so double disconnect does not have the effect of a single
disconnect. -/
theorem double_disconnect_duplicate_matching :
    ((onDisconnect sWithChild childConn).2 ++
        (onDisconnect (onDisconnect sWithChild childConn).1 childConn).2).count
      (Effect.emitMatching "r1") = 2 := by decide

/-- Branch characterization of the `disconnect` handler for a child-server
connection. -/
theorem onDisconnect_child_eq (s : ServerState) (conn : Connection)
    (hc : conn.childServer = true) :
    onDisconnect s conn =
      (if (removeId s.childServerList conn.id).length ≤ 0 then
        ({ s with
            connectionSet := removeId s.connectionSet conn.id
            childServerList := removeId s.childServerList conn.id
            currentServerMode := DisplayMode.single },
          conn.roomIds.map Effect.emitMatching ++ [Effect.emitModeAll DisplayMode.single]
            ++ [Effect.notifyServerMode DisplayMode.single])
      else
        ({ s with
            connectionSet := removeId s.connectionSet conn.id
            childServerList := removeId s.childServerList conn.id },
          conn.roomIds.map Effect.emitMatching)) := by
  unfold onDisconnect toggleServerMode
  rw [hc]
  rfl

/-- Branch characterization of the `disconnect` handler for a normal
connection. -/
theorem onDisconnect_nonchild_eq (s : ServerState) (conn : Connection)
    (hc : conn.childServer = false) :
    onDisconnect s conn =
      ({ s with connectionSet := removeId s.connectionSet conn.id }, []) := by
  unfold onDisconnect
  rw [hc]
  rfl

/-- C6 amended: running the `disconnect` handler twice for the same
connection leaves the registry state exactly as after a single run and
raises no error, but for a child-server connection the second run
re-emits the `matching` announcement to every room in `conn.roomIds`
(the announcements are duplicated, not suppressed, because the handler
never clears `roomIds`). -/
theorem double_disconnect_state_idempotent (s : ServerState) (conn : Connection) :
    (onDisconnect (onDisconnect s conn).1 conn).1 = (onDisconnect s conn).1 ∧
    (conn.childServer = true → ∀ r ∈ conn.roomIds,
      Effect.emitMatching r ∈ (onDisconnect (onDisconnect s conn).1 conn).2) := by
  by_cases hc : conn.childServer = true
  · have h1 := onDisconnect_child_eq s conn hc
    by_cases hlen : (removeId s.childServerList conn.id).length ≤ 0
    · rw [if_pos hlen] at h1
      rw [h1]
      dsimp only
      have h2 := onDisconnect_child_eq
        { s with
            connectionSet := removeId s.connectionSet conn.id
            childServerList := removeId s.childServerList conn.id
            currentServerMode := DisplayMode.single } conn hc
      dsimp only at h2
      rw [removeId_idem, removeId_idem, if_pos hlen] at h2
      rw [h2]
      refine ⟨rfl, ?_⟩
      intro _ r hr
      exact List.mem_append_left _ (List.mem_append_left _ (List.mem_map_of_mem _ hr))
    · rw [if_neg hlen] at h1
      rw [h1]
      dsimp only
      have h2 := onDisconnect_child_eq
        { s with
            connectionSet := removeId s.connectionSet conn.id
            childServerList := removeId s.childServerList conn.id } conn hc
      dsimp only at h2
      rw [removeId_idem, removeId_idem, if_neg hlen] at h2
      rw [h2]
      refine ⟨rfl, ?_⟩
      intro _ r hr
      exact List.mem_map_of_mem _ hr
  · have hc' : conn.childServer = false := by
      revert hc
      cases conn.childServer <;> simp
    have h1 := onDisconnect_nonchild_eq s conn hc'
    rw [h1]
    dsimp only
    have h2 := onDisconnect_nonchild_eq
      { s with connectionSet := removeId s.connectionSet conn.id } conn hc'
    dsimp only at h2
    rw [removeId_idem] at h2
    rw [h2]
    exact ⟨rfl, fun h => absurd h hc⟩

theorem double_disconnect_state_idempotent_witness :
    (onDisconnect (onDisconnect sWithChild childConn).1 childConn).1 =
      (onDisconnect sWithChild childConn).1 ∧
    Effect.emitMatching "r1" ∈
      (onDisconnect (onDisconnect sWithChild childConn).1 childConn).2 :=
  ⟨(double_disconnect_state_idempotent sWithChild childConn).1,
    (double_disconnect_state_idempotent sWithChild childConn).2 rfl "r1" (by decide)⟩

/-- C7 counterexample: with no active connection, `setState("connected")`
does not set the 4th byte of the packet — the packet keeps its previous
value `[0x01,0x00,0x00,0x00]` instead of becoming `[0x01,0x00,0x00,0x02]`
(and nothing is sent), so the claim that `setState` always sets the 4th
byte per the mapping is false. -/
theorem setState_no_connection_counterexample :
    (setState initialState (some "connected")).1.packet ≠ [0x01, 0x00, 0x00, 0x02] ∧
    (setState initialState (some "connected")).1.packet = [0x01, 0x00, 0x00, 0x00] ∧
    (setState initialState (some "connected")).2 = [] := by decide

/-- C7 amended: for a state name with code `c` under the mapping
connecting ↦ 0x01, connected ↦ 0x02, lost ↦ 0x03, disconnected ↦ 0x04,
`setState` sets the 4th byte of the packet to `c` (the first three bytes
staying `[0x01,0x00,0x00]`) and sends the packet through `send` when at
least one connection is active; with no active connection it neither
updates the packet nor sends. -/
theorem setState_packet_and_send (s : ServerState) (st : String) (c b : Nat)
    (hcode : stateCode st = some c)
    (hpacket : s.packet = [0x01, 0x00, 0x00, b]) :
    (setState s (some st)).1.packet =
      (if s.connections.length ≠ 0 then [0x01, 0x00, 0x00, c]
        else [0x01, 0x00, 0x00, b]) ∧
    (setState s (some st)).2 =
      (if s.connections.length ≠ 0 then
        send { s with state := some st, packet := [0x01, 0x00, 0x00, c] }
          (Payload.bytes [0x01, 0x00, 0x00, c])
      else []) ∧
    stateCode "connecting" = some 0x01 ∧
    stateCode "connected" = some 0x02 ∧
    stateCode "lost" = some 0x03 ∧
    stateCode "disconnected" = some 0x04 := by
  unfold setState
  dsimp only [Option.bind]
  rw [hcode]
  dsimp only
  split
  · rw [hpacket]
    exact ⟨rfl, rfl, rfl, rfl, rfl, rfl⟩
  · rw [hpacket]
    exact ⟨rfl, rfl, rfl, rfl, rfl, rfl⟩

theorem setState_packet_and_send_witness :
    (setState connState (some "connected")).1.packet = [0x01, 0x00, 0x00, 0x02] ∧
    (setState connState (some "connected")).2 =
      send { connState with state := some "connected", packet := [0x01, 0x00, 0x00, 0x02] }
        (Payload.bytes [0x01, 0x00, 0x00, 0x02]) := by
  have h := setState_packet_and_send connState "connected" 0x02 0x00 rfl rfl
  exact ⟨by rw [h.1]; rfl, by rw [h.2.1]; rfl⟩

/-- Projections of the `connection` handler: the resulting display mode is
recomputed from the updated child-server list, which gains the new id
exactly for a child-server handshake. -/
theorem onConnect_mode_childList (s : ServerState) (cid : String) (c : Bool)
    (ro : Option String) :
    (onConnect s cid c ro).1.currentServerMode =
      (if (if c then pushIfAbsent s.childServerList cid else s.childServerList).length > 0
        then DisplayMode.multi else DisplayMode.single) ∧
    (onConnect s cid c ro).1.childServerList =
      (if c then pushIfAbsent s.childServerList cid else s.childServerList) := by
  unfold onConnect toggleServerMode
  dsimp only
  constructor
  · rw [setState_currentServerMode]
  · rw [setState_childServerList]

/-- The `disconnect` handler preserves the display-mode invariant. -/
theorem onDisconnect_modeInv (s : ServerState) (conn : Connection)
    (h : modeInv s) : modeInv ((onDisconnect s conn).1) := by
  by_cases hc : conn.childServer = true
  · have h1 := onDisconnect_child_eq s conn hc
    by_cases hlen : (removeId s.childServerList conn.id).length ≤ 0
    · rw [if_pos hlen] at h1
      rw [h1]
      have h0 : (removeId s.childServerList conn.id).length = 0 := Nat.le_zero.mp hlen
      constructor
      · dsimp only
        rw [h0]
        constructor
        · intro hx
          cases hx
        · intro hx
          exact absurd hx (by omega)
      · dsimp only
        rw [h0]
        exact ⟨fun _ => rfl, fun _ => rfl⟩
    · rw [if_neg hlen] at h1
      rw [h1]
      have h0 : 0 < (removeId s.childServerList conn.id).length := by omega
      have hs : 0 < s.childServerList.length :=
        Nat.lt_of_lt_of_le h0 (removeId_length_le _ _)
      have hmode : s.currentServerMode = DisplayMode.multi := h.1.mpr hs
      constructor
      · dsimp only
        exact ⟨fun _ => h0, fun _ => hmode⟩
      · dsimp only
        rw [hmode]
        constructor
        · intro hx
          cases hx
        · intro hx
          exact absurd hx (by omega)
  · have hc' : conn.childServer = false := by
      revert hc
      cases conn.childServer <;> simp
    rw [onDisconnect_nonchild_eq s conn hc']
    exact h

/-- The `connection` handler establishes the display-mode invariant. -/
theorem onConnect_modeInv (s : ServerState) (cid : String) (c : Bool)
    (ro : Option String) : modeInv ((onConnect s cid c ro).1) := by
  rcases onConnect_mode_childList s cid c ro with ⟨hm, hl⟩
  unfold modeInv
  rw [hm, hl]
  by_cases h0 :
    0 < (if c then pushIfAbsent s.childServerList cid else s.childServerList).length
  · rw [if_pos h0]
    refine ⟨⟨fun _ => h0, fun _ => rfl⟩, ⟨fun hx => ?_, fun hx => ?_⟩⟩
    · exact absurd hx (by decide)
    · exact absurd h0 (by omega)
  · rw [if_neg h0]
    refine ⟨⟨fun hx => ?_, fun hx => ?_⟩, ⟨fun _ => ?_, fun _ => rfl⟩⟩
    · exact absurd hx (by decide)
    · exact absurd hx h0
    · omega

/-- Any hub-side lifecycle event preserves the display-mode invariant. -/
theorem hubStep_modeInv (s : ServerState) (e : HubEvent) (h : modeInv s) :
    modeInv (hubStep s e) := by
  cases e with
  | connect cid c r => exact onConnect_modeInv s cid c r
  | disconnect conn => exact onDisconnect_modeInv s conn h

theorem foldl_hubStep_modeInv (es : List HubEvent) (s : ServerState) (h : modeInv s) :
    modeInv (es.foldl hubStep s) := by
  induction es generalizing s with
  | nil => exact h
  | cons e t ih => exact ih _ (hubStep_modeInv s e h)

/-- The constructor state satisfies the display-mode invariant. -/
theorem initialState_modeInv : modeInv initialState := by
  refine ⟨⟨fun hx => ?_, fun hx => ?_⟩, ⟨fun _ => rfl, fun _ => rfl⟩⟩
  · exact absurd hx (by decide)
  · exact absurd hx (by decide)

/-- C2: after any sequence of hub-side connect and disconnect events from
the constructor state, `currentServerMode` is multi exactly when the
number of live child-server connections is positive and single exactly
when it is zero. -/
theorem currentServerMode_tracks_childServers (es : List HubEvent) :
    ((runHubEvents es).currentServerMode = DisplayMode.multi ↔
      0 < (runHubEvents es).childServerList.length) ∧
    ((runHubEvents es).currentServerMode = DisplayMode.single ↔
      (runHubEvents es).childServerList.length = 0) :=
  foldl_hubStep_modeInv es initialState initialState_modeInv

theorem mem_foldl_pushAbsent (rs : List String) (acc : List String) (r : String)
    (h : r ∈ acc) :
    r ∈ rs.foldl (fun a x => if x ∉ a ∧ x ≠ "" then a ++ [x] else a) acc := by
  induction rs generalizing acc with
  | nil => exact h
  | cons x t ih =>
    apply ih
    dsimp only
    split
    · exact List.mem_append_left _ h
    · exact h

theorem mem_onClientConnect_fold (rs : List String) (acc : ServerState × List Effect)
    (r : String) (h : r ∈ acc.1.masterRoomIds) :
    r ∈ (rs.foldl
      (fun acc r2 =>
        if r2 ≠ "" then
          ({ acc.1 with masterRoomIds := pushIfAbsent acc.1.masterRoomIds r2 },
            acc.2 ++ [Effect.emitMatchTarget r2])
        else acc) acc).1.masterRoomIds := by
  induction rs generalizing acc with
  | nil => exact h
  | cons x t ih =>
    apply ih
    dsimp only
    split
    · exact mem_pushIfAbsent _ h
    · exact h

/-- The `connection` handler never changes `masterRoomIds`. -/
theorem onConnect_masterRoomIds (s : ServerState) (cid : String) (c : Bool)
    (ro : Option String) :
    (onConnect s cid c ro).1.masterRoomIds = s.masterRoomIds := by
  unfold onConnect toggleServerMode
  dsimp only
  rw [setState_masterRoomIds]

/-- C8: `masterRoomIds` grows monotonically — every operation of the server
either leaves it unchanged or adds room ids, and no operation ever removes
an element. -/
theorem masterRoomIds_monotone (s : ServerState) (op : Op) (r : String)
    (h : r ∈ s.masterRoomIds) : r ∈ (step s op).masterRoomIds := by
  cases op with
  | addRoomIds rid =>
    simp only [step, addRoomIdsOnSecondInstance]
    split
    · exact mem_pushIfAbsent _ h
    · split
      · exact mem_pushIfAbsent _ h
      · exact h
  | openListen rs =>
    simp only [step, openListening]
    exact mem_foldl_pushAbsent rs s.masterRoomIds r h
  | openErr sock =>
    simp only [step, openError, toggleServerMode]
    exact h
  | clientConnect rs =>
    simp only [step, onClientConnect]
    exact mem_onClientConnect_fold rs (s, []) r h
  | reconnectFailed =>
    simp only [step, onReconnectFailed, toggleServerMode]
    exact h
  | clientDisconnect =>
    simp only [step, onClientDisconnect]
    exact h
  | connect cid c ro =>
    simp only [step]
    rw [onConnect_masterRoomIds]
    exact h
  | matchTarget conn rid =>
    simp only [step, onMatchTarget]
    split
    · exact h
    · exact h
  | disconnect conn =>
    simp only [step, onDisconnect, toggleServerMode]
    split
    · split
      · exact h
      · exact h
    · exact h
  | message conn msg hasAck => exact h
  | sendOp p => exact h
  | setStateOp st =>
    simp only [step]
    rw [setState_masterRoomIds]
    exact h
  | closeSingle conn =>
    simp only [step, closeSingleConnection]
    split
    · exact h
    · exact h
  | connectionClose =>
    simp only [step, onConnectionClose]
    exact h
  | disconnectHw => exact h
  | closeSrv =>
    simp only [step, closeServer]
    exact h
  | toggleMode m =>
    simp only [step, toggleServerMode]
    exact h

theorem masterRoomIds_monotone_witness :
    "r1" ∈ (step { initialState with masterRoomIds := ["r1"] }
      (Op.disconnect childConn)).masterRoomIds :=
  masterRoomIds_monotone { initialState with masterRoomIds := ["r1"] }
    (Op.disconnect childConn) "r1" (by decide)

/-- C9: the hardware-module fetch rejects immediately for an empty module
name without issuing any HTTP request; otherwise it issues an HTTP GET for
the module package, rejects whenever the response status is not 200, and
commits no module configuration (`sendState` / `startScan`) in either
failure case. -/
theorem requestHardware_failure_behavior (m : String) (resp : Option Nat) (z : Bool)
    (cfg : String) :
    (m = "" → requestHardware m resp z cfg = [FetchStep.rejected]) ∧
    (m ≠ "" →
      FetchStep.httpGet ("/api/hardware/" ++ m ++ "/module") ∈
        requestHardware m resp z cfg) ∧
    (∀ sc, m ≠ "" → resp = some sc → sc ≠ 200 →
      requestHardware m resp z cfg =
        [FetchStep.httpGet ("/api/hardware/" ++ m ++ "/module"), FetchStep.rejected]) ∧
    (∀ k c2, (m = "" ∨ ∃ sc, resp = some sc ∧ sc ≠ 200) →
      FetchStep.sendState k c2 ∉ requestHardware m resp z cfg ∧
      FetchStep.startScan c2 ∉ requestHardware m resp z cfg) := by
  refine ⟨?_, ?_, ?_, ?_⟩
  · intro h
    unfold requestHardware
    rw [if_pos h]
  · intro h
    unfold requestHardware
    rw [if_neg h]
    exact List.mem_cons_self _ _
  · intro sc h hr h200
    unfold requestHardware
    rw [if_neg h, hr]
    dsimp only
    rw [if_neg h200]
  · intro k c2 h
    rcases h with h | ⟨sc, hr, h200⟩
    · unfold requestHardware
      rw [if_pos h]
      constructor <;> simp
    · unfold requestHardware
      rw [hr]
      by_cases he : m = ""
      · rw [if_pos he]
        constructor <;> simp
      · rw [if_neg he]
        dsimp only
        rw [if_neg h200]
        constructor <;> simp

theorem requestHardware_failure_behavior_witness :
    requestHardware "arduino" (some 404) false "" =
      [FetchStep.httpGet ("/api/hardware/" ++ "arduino" ++ "/module"),
        FetchStep.rejected] ∧
    requestHardware "" (some 200) true "cfg" = [FetchStep.rejected] :=
  ⟨(requestHardware_failure_behavior "arduino" (some 404) false "").2.2.1 404
      (by decide) rfl (by decide),
    (requestHardware_failure_behavior "" (some 200) true "cfg").1 rfl⟩

end EntryHW
